import Mathlib

/-!
# Verification of `torch/csrc/distributed/c10d/ProcessGroup.hpp`

A shallow embedding of the `c10d::ProcessGroup` dispatch/registry layer.
The C++ class keeps four mutually consistent views of its registered
communication backends (`deviceTypes_`, `deviceTypeToBackendType_`,
`deviceTypeToBackend_`, `backendTypeToBackend_`), an optional bound device
(`bound_device_id_`), plus immutable identity data (`rank_`, `size_`,
`options_->backend`, `backendType_`).

Backend objects are referenced through `c10::intrusive_ptr`, so a single
instance can be aliased by several map entries and mutated through any of
them.  We model this by giving each backend object an identity
(`BackendId := Nat`) and keeping the objects themselves in an ambient
`Heap` carried alongside the group state; map entries store identities.

Stateful C++ methods become functions `PGState → ... → PGState × Except
PGError α`.  `TORCH_CHECK` failures become `Except.error`; since a C++
throw does not roll back mutations already performed, the returned state
keeps every update made before the failing check.  Dereferencing an empty
`c10::optional` (undefined behavior in C++) is modelled as the distinct
error `PGError.absentOptionalAccess`.
-/

set_option autoImplicit false

namespace C10d

/-- `c10::DeviceType` (the device kinds relevant to this layer). -/
inductive DeviceType where
  | cpu
  | cuda
  | hip
  | xpu
  | mps
deriving DecidableEq

/-- `ProcessGroup::BackendType` from ProcessGroup.hpp lines 66-73. -/
inductive BackendType where
  | undefined
  | gloo
  | nccl
  | ucc
  | mpi
  | custom
deriving DecidableEq

/-- `at::Device`: a device type plus a device index, where index `-1`
means "no index" (`has_index()` is `index_ != -1`). -/
structure Device where
  deviceType : DeviceType
  index : Int
deriving DecidableEq

/-- `c10::Device::has_index()`. -/
def Device.hasIndex (d : Device) : Bool := d.index != -1

/-- Identity of a `Backend` object referenced via `c10::intrusive_ptr`. -/
abbrev BackendId := Nat

/-- The mutable state of one `Backend` object that this layer reads or
writes: its bound device (`getBoundDeviceId`/`setBoundDeviceId`) and its
sequence-number counter. -/
structure BackendObj where
  boundDeviceId : Option Device
  seq : Nat
deriving DecidableEq

/-- The ambient collection of live `Backend` objects, keyed by identity. -/
abbrev Heap := List (BackendId × BackendObj)

/-- Errors raised synchronously (via `TORCH_CHECK`) by this layer, plus
the modelled undefined behavior of reading an absent `c10::optional`. -/
inductive PGError where
  /-- "Could not find backend type <bt>." (getBackend(BackendType)) -/
  | notFoundBackendType (bt : BackendType)
  /-- "Could not find backend for device type <dt>" (getBackend(DeviceType)) -/
  | notFoundDeviceType (dt : DeviceType)
  /-- "Could not find the default backend type <bt> for Process Group with name <name>." -/
  | defaultBackendNotFound (bt : BackendType) (name : String)
  /-- "ProcessGroup <name> does not yet support sequence numbers." -/
  | unsupportedSequenceNumbers (name : String)
  /-- Failed `TORCH_CHECK(existingBackend->getBoundDeviceId() == (*backend)->getBoundDeviceId())`. -/
  | boundDeviceMismatch
  /-- "setBoundDeviceId must have an index" -/
  | boundDeviceNoIndex
  /-- Dereference of an empty `c10::optional` (undefined behavior in the C++). -/
  | absentOptionalAccess
deriving DecidableEq

/-- Association-list update (`unordered_map::operator[] =`). -/
def setA {α β : Type} [DecidableEq α] (l : List (α × β)) (k : α) (v : β) :
    List (α × β) :=
  match l with
  | [] => [(k, v)]
  | p :: rest => if k = p.1 then (k, v) :: rest else p :: setA rest k v

/-- Association-list lookup (`unordered_map::find` / `::at`). -/
def findA {α β : Type} [DecidableEq α] (l : List (α × β)) (k : α) : Option β :=
  match l with
  | [] => none
  | p :: rest => if k = p.1 then some p.2 else findA rest k

/-- `unordered_set::insert`. -/
def insertD (l : List DeviceType) (dt : DeviceType) : List DeviceType :=
  if dt ∈ l then l else dt :: l

/-- `Backend::getBoundDeviceId()` read through the heap; a dangling
identity reads as an unbound backend. -/
def heapBound (h : Heap) (b : BackendId) : Option Device :=
  ((findA h b).getD { boundDeviceId := none, seq := 0 }).boundDeviceId

/-- `Backend::setBoundDeviceId(d)` performed through the heap. -/
def heapSetBound (h : Heap) (b : BackendId) (d : Option Device) : Heap :=
  setA h b { (findA h b).getD { boundDeviceId := none, seq := 0 } with boundDeviceId := d }

/-- The backend's locally tracked sequence-number counter, read through the heap. -/
def heapSeq (h : Heap) (b : BackendId) : Nat :=
  ((findA h b).getD { boundDeviceId := none, seq := 0 }).seq

/-- Overwrite the backend's sequence-number counter through the heap. -/
def heapSetSeq (h : Heap) (b : BackendId) (n : Nat) : Heap :=
  setA h b { (findA h b).getD { boundDeviceId := none, seq := 0 } with seq := n }

/-- The state of one `c10d::ProcessGroup`, together with the ambient heap
of `Backend` objects its `intrusive_ptr`s point into.  `rank`, `size`,
`backendName` (`options_->backend`) and `backendType` (`backendType_`)
are `const` members in the C++ class. -/
structure PGState where
  rank : Int
  size : Int
  backendName : String
  backendType : BackendType
  deviceTypes : List DeviceType
  deviceTypeToBackendType : List (DeviceType × BackendType)
  deviceTypeToBackend : List (DeviceType × BackendId)
  backendTypeToBackend : List (BackendType × BackendId)
  boundDeviceId : Option Device
  heap : Heap
deriving DecidableEq

/-- Modelled from the spec: the `ProcessGroup` constructor body lives in
ProcessGroup.cpp, which is not among the sources; the header shows the
registry maps start empty and `rank_`, `size_`, `options_`, `backendType_`
are `const` members fixed at construction.  The derivation of
`backendType_` from the backend-name string happens in the missing
translation unit, so the constructor here receives the resulting
name/type pair directly.  The `heap` argument is the ambient collection
of already-constructed `Backend` objects. -/
def mkProcessGroup (rank size : Int) (backendName : String)
    (backendType : BackendType) (heap : Heap) : PGState :=
  { rank := rank
    size := size
    backendName := backendName
    backendType := backendType
    deviceTypes := []
    deviceTypeToBackendType := []
    deviceTypeToBackend := []
    backendTypeToBackend := []
    boundDeviceId := none
    heap := heap }

/-- `ProcessGroup::getRank()` (line 86). -/
def getRank (pg : PGState) : Int := pg.rank

/-- `ProcessGroup::getSize()` (line 90). -/
def getSize (pg : PGState) : Int := pg.size

/-- `ProcessGroup::getBackendName()` (line 105): `options_->backend`. -/
def getBackendName (pg : PGState) : String := pg.backendName

/-- `ProcessGroup::getBackendType()` (line 109). -/
def getBackendType (pg : PGState) : BackendType := pg.backendType

/-- `ProcessGroup::setBackend` (lines 620-643).  Mirrors the C++ order of
effects: the `deviceTypeToBackendType_` and `deviceTypes_` updates happen
unconditionally first; if `backendType` is already registered, the
existing instance is aliased for `deviceType` and the bound-device
consistency `TORCH_CHECK` compares `existingBackend->getBoundDeviceId()`
with `(*backend)->getBoundDeviceId()` — the latter dereferences the
optional argument even when it is absent; otherwise a supplied instance
is registered under both maps and the group's bound device is pushed onto
it. -/
def setBackend (pg : PGState) (deviceType : DeviceType)
    (backendType : BackendType) (backend : Option BackendId) :
    PGState × Except PGError Unit :=
  let pg1 : PGState :=
    { pg with
      deviceTypeToBackendType := setA pg.deviceTypeToBackendType deviceType backendType
      deviceTypes := insertD pg.deviceTypes deviceType }
  match findA pg1.backendTypeToBackend backendType with
  | some existingBackend =>
    let pg2 : PGState :=
      { pg1 with
        deviceTypeToBackend := setA pg1.deviceTypeToBackend deviceType existingBackend }
    match backend with
    | none => (pg2, Except.error PGError.absentOptionalAccess)
    | some b =>
      if heapBound pg2.heap existingBackend = heapBound pg2.heap b then
        (pg2, Except.ok ())
      else
        (pg2, Except.error PGError.boundDeviceMismatch)
  | none =>
    match backend with
    | some b =>
      ({ pg1 with
          deviceTypeToBackend := setA pg1.deviceTypeToBackend deviceType b
          backendTypeToBackend := setA pg1.backendTypeToBackend backendType b
          heap := heapSetBound pg1.heap b pg.boundDeviceId },
        Except.ok ())
    | none => (pg1, Except.ok ())

/-- `ProcessGroup::getBackend(BackendType)` (lines 658-665). -/
def getBackendByType (pg : PGState) (backendType : BackendType) :
    Except PGError BackendId :=
  match findA pg.backendTypeToBackend backendType with
  | some b => Except.ok b
  | none => Except.error (PGError.notFoundBackendType backendType)

/-- `ProcessGroup::getDefaultBackend()` (lines 645-654): resolves the
group's own `backendType_`; the failure message names the group's backend
name. -/
def getDefaultBackend (pg : PGState) : Except PGError BackendId :=
  match findA pg.backendTypeToBackend pg.backendType with
  | some b => Except.ok b
  | none => Except.error (PGError.defaultBackendNotFound pg.backendType pg.backendName)

/-- Modelled from the spec: `ProcessGroup::getBackend(DeviceType)` is only
declared in the header (line 656); its definition is in ProcessGroup.cpp,
which is not among the sources.  The spec says it resolves via
`deviceTypeToBackendType` then `backendTypeToBackend` and fails (not
found) if the device type was never registered. -/
def getBackendByDeviceType (pg : PGState) (deviceType : DeviceType) :
    Except PGError BackendId :=
  match findA pg.deviceTypeToBackendType deviceType with
  | none => Except.error (PGError.notFoundDeviceType deviceType)
  | some bt =>
    match findA pg.backendTypeToBackend bt with
    | some b => Except.ok b
    | none => Except.error (PGError.notFoundBackendType bt)

/-- `ProcessGroup::setBoundDeviceId` (lines 710-715):
`TORCH_CHECK(device->has_index(), ...)` when the optional is engaged,
then `bound_device_id_ = device`. -/
def setBoundDeviceId (pg : PGState) (device : Option Device) :
    PGState × Except PGError Unit :=
  match device with
  | some d =>
    if d.hasIndex then
      ({ pg with boundDeviceId := device }, Except.ok ())
    else
      (pg, Except.error PGError.boundDeviceNoIndex)
  | none => ({ pg with boundDeviceId := none }, Except.ok ())

/-- `ProcessGroup::getBoundDeviceId` (lines 706-708). -/
def getBoundDeviceId (pg : PGState) : Option Device := pg.boundDeviceId

/-- Tensor dtype, as far as this layer fixes it: `at::kByte` in `barrier`,
the `at::empty` default (float) in `monitoredBarrier`. -/
inductive DType where
  | byte
  | float
deriving DecidableEq

/-- The metadata of a tensor allocated by `at::empty({..}, options)`:
shape, target device and dtype. -/
structure TensorMeta where
  shape : List Nat
  device : Device
  dtype : DType
deriving DecidableEq

/-- `c10d::BarrierOptions`, restricted to the fields ProcessGroup.hpp
reads (`opts.device`, `opts.device_ids`, `opts.timeout`); the full struct
lives in Types.hpp, outside the sources. -/
structure BarrierOptions where
  device : Option Device
  deviceIds : List Int
  timeout : Int
deriving DecidableEq

/-- `kProcessGroupDefaultTimeout` (lines 21-22), in milliseconds. -/
def kProcessGroupDefaultTimeout : Int := 30 * 60 * 1000

/-- A default-constructed `BarrierOptions()`: no explicit device, no
device ids, default timeout. -/
def defaultBarrierOptions : BarrierOptions :=
  { device := none, deviceIds := [], timeout := kProcessGroupDefaultTimeout }

/-- The tensor `ProcessGroup::barrier` (lines 576-610) builds and passes
to the `c10d::barrier` op: the explicit `opts.device` if present, else a
CUDA tensor when `backendType_ == NCCL`, else a CPU tensor; always shape
`{1}` and dtype `at::kByte`.  A `c10::Device` built from a bare
`DeviceType` has index `-1`. -/
def barrierTensor (pg : PGState) (opts : BarrierOptions) : TensorMeta :=
  match opts.device with
  | some d => { shape := [1], device := d, dtype := DType.byte }
  | none =>
    if pg.backendType = BackendType.nccl then
      { shape := [1], device := { deviceType := DeviceType.cuda, index := -1 }, dtype := DType.byte }
    else
      { shape := [1], device := { deviceType := DeviceType.cpu, index := -1 }, dtype := DType.byte }

/-- The tensor `ProcessGroup::monitoredBarrier` (lines 463-482) builds and
passes to the `c10d::monitored_barrier_` op:
`at::empty({0}, at::TensorOptions().device(at::kCPU))`, unconditionally,
ignoring the group state, the options' device ids and `wait_all_ranks`. -/
def monitoredBarrierTensor (pg : PGState) (opts : BarrierOptions)
    (wait_all_ranks : Bool) : TensorMeta :=
  let _ := pg
  let _ := opts
  let _ := wait_all_ranks
  { shape := [0], device := { deviceType := DeviceType.cpu, index := -1 }, dtype := DType.float }

/-- Whether `backendType_` is one of the kinds the sequence-number
methods accept (lines 490-492 and 511-513): GLOO, NCCL or UCC. -/
def supportsSequenceNumbers (pg : PGState) : Prop :=
  pg.backendType = BackendType.gloo ∨ pg.backendType = BackendType.nccl ∨
    pg.backendType = BackendType.ucc

instance (pg : PGState) : Decidable (supportsSequenceNumbers pg) := by
  unfold supportsSequenceNumbers; infer_instance

/-- Modelled from the spec: `Backend::setSequenceNumberForGroup` lives in
Backend.hpp, outside the sources; per the spec, rank 0 originates a
baseline sequence value and distributes it through the store so every
rank starts from an agreed baseline.  The agreed baseline is abstracted
as `0`. -/
def backendSetSequenceNumber (h : Heap) (b : BackendId) : Heap :=
  heapSetSeq h b 0

/-- `ProcessGroup::setSequenceNumberForGroup` (lines 487-502): delegates
to the default backend for GLOO/NCCL/UCC, otherwise fails with the
unsupported-feature `TORCH_CHECK` naming `getBackendName()`. -/
def setSequenceNumberForGroup (pg : PGState) : PGState × Except PGError Unit :=
  if supportsSequenceNumbers pg then
    match getDefaultBackend pg with
    | Except.ok b => ({ pg with heap := backendSetSequenceNumber pg.heap b }, Except.ok ())
    | Except.error e => (pg, Except.error e)
  else
    (pg, Except.error (PGError.unsupportedSequenceNumbers pg.backendName))

/-- `ProcessGroup::getSequenceNumberForGroup` (lines 507-523): returns the
default backend's locally tracked counter for GLOO/NCCL/UCC, otherwise
fails with the unsupported-feature `TORCH_CHECK` naming
`getBackendName()`. -/
def getSequenceNumberForGroup (pg : PGState) : Except PGError Nat :=
  if supportsSequenceNumbers pg then
    match getDefaultBackend pg with
    | Except.ok b => Except.ok (heapSeq pg.heap b)
    | Except.error e => Except.error e
  else
    Except.error (PGError.unsupportedSequenceNumbers pg.backendName)

/-- The state-mutating operations of the embedded layer, used to state
that identity data is immutable across any sequence of calls. -/
inductive PGOp where
  | setBackendOp (deviceType : DeviceType) (backendType : BackendType)
      (backend : Option BackendId)
  | setBoundDeviceIdOp (device : Option Device)
  | setSequenceNumberOp

/-- Run one operation, keeping the post-state whether or not the call
raised (a C++ throw does not roll back earlier mutations). -/
def applyOp (pg : PGState) (op : PGOp) : PGState :=
  match op with
  | PGOp.setBackendOp dt bt ob => (setBackend pg dt bt ob).1
  | PGOp.setBoundDeviceIdOp d => (setBoundDeviceId pg d).1
  | PGOp.setSequenceNumberOp => (setSequenceNumberForGroup pg).1

/-- Run a list of `setBackend` calls (device type, backend type, optional
instance), threading the state through. -/
def runSetBackends (pg : PGState)
    (ops : List (DeviceType × BackendType × Option BackendId)) : PGState :=
  ops.foldl (fun s o => (setBackend s o.1 o.2.1 o.2.2).1) pg

/-- The invariant that a stored bound device always carries an index. -/
def boundIndexed (pg : PGState) : Prop :=
  ∀ d : Device, pg.boundDeviceId = some d → d.hasIndex = true

/-- "The only registered backend serves the CPU device type": every
device type in the group's device-type set is CPU. -/
def onlyCpuBackends (pg : PGState) : Prop :=
  ∀ dt ∈ pg.deviceTypes, dt = DeviceType.cpu

instance (pg : PGState) : Decidable (onlyCpuBackends pg) :=
  List.decidableBAll _ _

/-- A group constructed with default backend type NCCL (name "nccl")
whose only registered backend is a GLOO instance for the CPU device. -/
def pgNcclCpuOnly : PGState :=
  (setBackend
    (mkProcessGroup 0 2 "nccl" BackendType.nccl [(0, { boundDeviceId := none, seq := 0 })])
    DeviceType.cpu BackendType.gloo (some 0)).1

/-- A group with default backend type GLOO (name "gloo") holding one GLOO
backend instance registered for the CPU device. -/
def pgGlooCpu : PGState :=
  (setBackend
    (mkProcessGroup 0 2 "gloo" BackendType.gloo [(0, { boundDeviceId := none, seq := 0 })])
    DeviceType.cpu BackendType.gloo (some 0)).1

/-- A group bound to device `cuda:0`, with no backend registered yet and
one live backend object (identity 3). -/
def pgBoundFresh : PGState :=
  (setBoundDeviceId
    (mkProcessGroup 0 2 "nccl" BackendType.nccl [(3, { boundDeviceId := none, seq := 0 })])
    (some { deviceType := DeviceType.cuda, index := 0 })).1

/-- A GLOO-default group whose registered GLOO backend (identity 7)
currently tracks sequence number 42. -/
def pgGlooSeq : PGState :=
  (setBackend
    (mkProcessGroup 0 2 "gloo" BackendType.gloo [(7, { boundDeviceId := none, seq := 42 })])
    DeviceType.cpu BackendType.gloo (some 7)).1

/-- A fresh GLOO-default group with two live unbound backend objects
(identities 0 and 1) and nothing registered. -/
def pgTwoObjs : PGState :=
  mkProcessGroup 0 2 "gloo" BackendType.gloo
    [(0, { boundDeviceId := none, seq := 0 }), (1, { boundDeviceId := none, seq := 0 })]

/-- Whether an `Except` result is a success. -/
def isOkE {ε α : Type} (e : Except ε α) : Bool :=
  match e with
  | Except.ok _ => true
  | Except.error _ => false

/-! ## Association-list lemmas -/

theorem findA_setA_self {α β : Type} [DecidableEq α] (l : List (α × β)) (k : α)
    (v : β) : findA (setA l k v) k = some v := by
  induction l with
  | nil => simp [setA, findA]
  | cons p rest ih =>
    by_cases h : k = p.1
    · simp [setA, findA, h]
    · simp [setA, findA, h, ih]

theorem findA_setA_ne {α β : Type} [DecidableEq α] (l : List (α × β)) (k k' : α)
    (v : β) (h : k' ≠ k) : findA (setA l k v) k' = findA l k' := by
  induction l with
  | nil => simp [setA, findA, h]
  | cons p rest ih =>
    by_cases hk : k = p.1
    · subst hk
      simp [setA, findA, h]
    · by_cases hk' : k' = p.1
      · simp [setA, findA, hk, hk']
      · simp [setA, findA, hk, hk', ih]

theorem mem_insertD (l : List DeviceType) (dt : DeviceType) :
    dt ∈ insertD l dt := by
  unfold insertD
  split
  · assumption
  · exact List.mem_cons_self dt l

/-! ## Theorems for the claims -/

/-! ## Structural lemmas about `setBackend` -/

theorem setBackend_deviceTypeToBackendType (pg : PGState) (dt : DeviceType)
    (bt : BackendType) (ob : Option BackendId) :
    ((setBackend pg dt bt ob).1).deviceTypeToBackendType =
      setA pg.deviceTypeToBackendType dt bt := by
  unfold setBackend
  dsimp only
  repeat' split
  all_goals rfl

theorem setBackend_deviceTypes (pg : PGState) (dt : DeviceType)
    (bt : BackendType) (ob : Option BackendId) :
    ((setBackend pg dt bt ob).1).deviceTypes = insertD pg.deviceTypes dt := by
  unfold setBackend
  dsimp only
  repeat' split
  all_goals rfl

theorem setBackend_rank (pg : PGState) (dt : DeviceType) (bt : BackendType)
    (ob : Option BackendId) : ((setBackend pg dt bt ob).1).rank = pg.rank := by
  unfold setBackend
  dsimp only
  repeat' split
  all_goals rfl

theorem setBackend_size (pg : PGState) (dt : DeviceType) (bt : BackendType)
    (ob : Option BackendId) : ((setBackend pg dt bt ob).1).size = pg.size := by
  unfold setBackend
  dsimp only
  repeat' split
  all_goals rfl

/-- In the reuse branch (`backendType` already registered),
`backendTypeToBackend_` is never modified. -/
theorem setBackend_b2b_existing (pg : PGState) (dt : DeviceType)
    (bt : BackendType) (ob : Option BackendId) (eb : BackendId)
    (h : findA pg.backendTypeToBackend bt = some eb) :
    ((setBackend pg dt bt ob).1).backendTypeToBackend =
      pg.backendTypeToBackend := by
  unfold setBackend
  dsimp only
  rw [h]
  cases ob with
  | none => rfl
  | some b =>
    dsimp only
    split
    all_goals rfl

/-- In the fresh branch with an instance supplied, `backendTypeToBackend_`
gains exactly the new binding. -/
theorem setBackend_b2b_fresh (pg : PGState) (dt : DeviceType)
    (bt : BackendType) (b : BackendId)
    (h : findA pg.backendTypeToBackend bt = none) :
    ((setBackend pg dt bt (some b)).1).backendTypeToBackend =
      setA pg.backendTypeToBackend bt b := by
  unfold setBackend
  dsimp only
  rw [h]

/-- In the fresh branch with no instance supplied, `backendTypeToBackend_`
is unchanged. -/
theorem setBackend_b2b_fresh_none (pg : PGState) (dt : DeviceType)
    (bt : BackendType) (h : findA pg.backendTypeToBackend bt = none) :
    ((setBackend pg dt bt none).1).backendTypeToBackend =
      pg.backendTypeToBackend := by
  unfold setBackend
  dsimp only
  rw [h]

/-! ## Theorems for the claims -/

/-- C6: every call to `setBackend(deviceType, backendType, backendOpt)`
records `deviceType → backendType` in the device-type-to-backend-type map
and adds `deviceType` to the device-type set, in every branch — including
calls that fail the bound-device consistency check or the optional
dereference, whose recordings are not rolled back. -/
theorem setBackend_always_records (pg : PGState) (dt : DeviceType)
    (bt : BackendType) (ob : Option BackendId) :
    findA ((setBackend pg dt bt ob).1).deviceTypeToBackendType dt = some bt ∧
      dt ∈ ((setBackend pg dt bt ob).1).deviceTypes := by
  rw [setBackend_deviceTypeToBackendType, setBackend_deviceTypes]
  exact ⟨findA_setA_self _ _ _, mem_insertD _ _⟩

theorem setBoundDeviceId_some_indexed (pg : PGState) (d : Device)
    (h : d.hasIndex = true) :
    setBoundDeviceId pg (some d) =
      ({ pg with boundDeviceId := some d }, Except.ok ()) := by
  unfold setBoundDeviceId
  dsimp only
  rw [if_pos h]

theorem setBoundDeviceId_some_noindex (pg : PGState) (d : Device)
    (h : d.hasIndex = false) :
    setBoundDeviceId pg (some d) =
      (pg, Except.error PGError.boundDeviceNoIndex) := by
  unfold setBoundDeviceId
  dsimp only
  rw [if_neg (by rw [h]; exact Bool.false_ne_true)]

/-- C9: `setBoundDeviceId(device)` fails (with "setBoundDeviceId must have
an index", leaving the stored device unchanged) whenever the supplied
optional device is present but lacks an index; consequently the invariant
that a stored concrete bound device always includes an index is preserved
by every call. -/
theorem setBoundDeviceId_requires_index (pg : PGState) (device : Option Device) :
    (∀ d : Device, device = some d → d.hasIndex = false →
        (setBoundDeviceId pg device).2 = Except.error PGError.boundDeviceNoIndex ∧
          (setBoundDeviceId pg device).1 = pg) ∧
      (boundIndexed pg → boundIndexed (setBoundDeviceId pg device).1) := by
  constructor
  · intro d hd hfalse
    subst hd
    rw [setBoundDeviceId_some_noindex pg d hfalse]
    exact ⟨rfl, rfl⟩
  · intro hinv d hd
    cases device with
    | none => exact Option.noConfusion hd
    | some d0 =>
      cases hb : d0.hasIndex with
      | true =>
        rw [setBoundDeviceId_some_indexed pg d0 hb] at hd
        dsimp only at hd
        simp only [Option.some.injEq] at hd
        subst hd
        exact hb
      | false =>
        rw [setBoundDeviceId_some_noindex pg d0 hb] at hd
        dsimp only at hd
        exact hinv d hd

/-- Witness for C9 at a concrete input: a CUDA device with index `-1`
(no index) is rejected and the group state is unchanged; the
all-bound-devices-indexed invariant carries over. -/
theorem setBoundDeviceId_requires_index_witness :
    (setBoundDeviceId (mkProcessGroup 0 2 "gloo" BackendType.gloo [])
        (some { deviceType := DeviceType.cuda, index := -1 })).2 =
      Except.error PGError.boundDeviceNoIndex ∧
      boundIndexed (setBoundDeviceId (mkProcessGroup 0 2 "gloo" BackendType.gloo [])
        (some { deviceType := DeviceType.cuda, index := -1 })).1 := by
  have h := setBoundDeviceId_requires_index
    (mkProcessGroup 0 2 "gloo" BackendType.gloo [])
    (some { deviceType := DeviceType.cuda, index := -1 })
  refine ⟨(h.1 _ rfl (by decide)).1, h.2 ?_⟩
  intro d hd
  exact Option.noConfusion hd

/-- C10: `monitoredBarrier` always builds its communication buffer with
`at::empty({0}, at::TensorOptions().device(at::kCPU))` — a CPU tensor —
for every group state, options value and `wait_all_ranks` flag. -/
theorem monitoredBarrier_cpu_buffer (pg : PGState) (opts : BarrierOptions)
    (wait_all_ranks : Bool) :
    (monitoredBarrierTensor pg opts wait_all_ranks).device =
      { deviceType := DeviceType.cpu, index := -1 } := rfl

/-- C2 counterexample: on a group whose only registered backend serves
the CPU device type but whose default backend type is NCCL, `barrier()`
with default options builds a CUDA buffer, not a CPU one — the code
branches on `backendType_ == NCCL` and never consults the registry. -/
theorem barrier_nccl_default_counterexample :
    onlyCpuBackends pgNcclCpuOnly ∧
      (barrierTensor pgNcclCpuOnly defaultBarrierOptions).device.deviceType =
        DeviceType.cuda ∧
      DeviceType.cuda ≠ DeviceType.cpu := by
  decide

/-- C2 (amended): for every group whose only registered backend serves
the CPU device type, `barrier()` with default options (no explicit
device) builds a CPU buffer, provided the group's default backend type is
not NCCL; with an NCCL default backend type the buffer is CUDA instead. -/
theorem barrier_default_cpu_when_not_nccl (pg : PGState) (opts : BarrierOptions)
    (hdev : opts.device = none) (hcpu : onlyCpuBackends pg)
    (hnccl : pg.backendType ≠ BackendType.nccl) :
    (barrierTensor pg opts).device.deviceType = DeviceType.cpu := by
  unfold barrierTensor
  rw [hdev]
  dsimp only
  rw [if_neg hnccl]

/-- Witness for the amended C2 at a concrete input: a GLOO-default group
with one CPU backend registered. -/
theorem barrier_default_cpu_when_not_nccl_witness :
    (barrierTensor
        ((setBackend
          (mkProcessGroup 0 2 "gloo" BackendType.gloo [(0, { boundDeviceId := none, seq := 0 })])
          DeviceType.cpu BackendType.gloo (some 0)).1)
        defaultBarrierOptions).device.deviceType = DeviceType.cpu :=
  barrier_default_cpu_when_not_nccl _ _ rfl (by decide) (by decide)

/-- C1 (code bug): after `setBackend(CPU, GLOO, glooBackend)`, the call
`setBackend(CUDA, GLOO, c10::nullopt)` takes the reuse branch, whose
consistency check evaluates `(*backend)->getBoundDeviceId()` on the
absent optional — the call does not succeed cleanly, it performs the
modelled absent-optional access; the registry nevertheless ends up
aliasing CUDA to the same instance as CPU because the map updates precede
the failing check. -/
theorem setBackend_none_accesses_absent_optional :
    (setBackend pgGlooCpu DeviceType.cuda BackendType.gloo none).2 =
      Except.error PGError.absentOptionalAccess ∧
      getBackendByDeviceType
          ((setBackend pgGlooCpu DeviceType.cuda BackendType.gloo none).1)
          DeviceType.cuda =
        getBackendByDeviceType
          ((setBackend pgGlooCpu DeviceType.cuda BackendType.gloo none).1)
          DeviceType.cpu := by
  exact ⟨rfl, rfl⟩

/-! ## Identity data is immutable (C7) -/

theorem setBoundDeviceId_rank (pg : PGState) (device : Option Device) :
    ((setBoundDeviceId pg device).1).rank = pg.rank := by
  unfold setBoundDeviceId
  cases device with
  | none => rfl
  | some d =>
    dsimp only
    split
    all_goals rfl

theorem setBoundDeviceId_size (pg : PGState) (device : Option Device) :
    ((setBoundDeviceId pg device).1).size = pg.size := by
  unfold setBoundDeviceId
  cases device with
  | none => rfl
  | some d =>
    dsimp only
    split
    all_goals rfl

theorem setSequenceNumberForGroup_rank (pg : PGState) :
    ((setSequenceNumberForGroup pg).1).rank = pg.rank := by
  unfold setSequenceNumberForGroup
  repeat' split
  all_goals rfl

theorem setSequenceNumberForGroup_size (pg : PGState) :
    ((setSequenceNumberForGroup pg).1).size = pg.size := by
  unfold setSequenceNumberForGroup
  repeat' split
  all_goals rfl

theorem applyOp_rank (pg : PGState) (op : PGOp) : (applyOp pg op).rank = pg.rank := by
  cases op with
  | setBackendOp dt bt ob => exact setBackend_rank pg dt bt ob
  | setBoundDeviceIdOp d => exact setBoundDeviceId_rank pg d
  | setSequenceNumberOp => exact setSequenceNumberForGroup_rank pg

theorem applyOp_size (pg : PGState) (op : PGOp) : (applyOp pg op).size = pg.size := by
  cases op with
  | setBackendOp dt bt ob => exact setBackend_size pg dt bt ob
  | setBoundDeviceIdOp d => exact setBoundDeviceId_size pg d
  | setSequenceNumberOp => exact setSequenceNumberForGroup_size pg

theorem foldl_applyOp_rank (ops : List PGOp) :
    ∀ pg : PGState, (ops.foldl applyOp pg).rank = pg.rank := by
  induction ops with
  | nil => intro pg; rfl
  | cons op rest ih =>
    intro pg
    rw [List.foldl_cons, ih (applyOp pg op), applyOp_rank]

theorem foldl_applyOp_size (ops : List PGOp) :
    ∀ pg : PGState, (ops.foldl applyOp pg).size = pg.size := by
  induction ops with
  | nil => intro pg; rfl
  | cons op rest ih =>
    intro pg
    rw [List.foldl_cons, ih (applyOp pg op), applyOp_size]

/-- C7: for every valid `(rank, size)` with `0 <= rank < size`, a
constructed group answers exactly those values from `getRank`/`getSize`,
and they are unchanged by any sequence of the layer's mutating
operations (`rank_` and `size_` are `const` members). -/
theorem rank_size_constant (rank size : Int) (name : String)
    (bt : BackendType) (heap : Heap) (ops : List PGOp)
    (h : 0 ≤ rank ∧ rank < size) :
    getRank (mkProcessGroup rank size name bt heap) = rank ∧
      getSize (mkProcessGroup rank size name bt heap) = size ∧
      getRank (ops.foldl applyOp (mkProcessGroup rank size name bt heap)) = rank ∧
      getSize (ops.foldl applyOp (mkProcessGroup rank size name bt heap)) = size :=
  ⟨rfl, rfl, foldl_applyOp_rank ops _, foldl_applyOp_size ops _⟩

/-- Witness for C7 at a concrete input: rank 1 in a group of 4, after a
bound-device update and two backend registrations. -/
theorem rank_size_constant_witness :
    getRank (List.foldl applyOp (mkProcessGroup 1 4 "gloo" BackendType.gloo [])
        [PGOp.setBoundDeviceIdOp (some { deviceType := DeviceType.cuda, index := 0 }),
          PGOp.setBackendOp DeviceType.cpu BackendType.gloo (some 0),
          PGOp.setBackendOp DeviceType.cuda BackendType.gloo (some 0)]) = 1 ∧
      getSize (List.foldl applyOp (mkProcessGroup 1 4 "gloo" BackendType.gloo [])
        [PGOp.setBoundDeviceIdOp (some { deviceType := DeviceType.cuda, index := 0 }),
          PGOp.setBackendOp DeviceType.cpu BackendType.gloo (some 0),
          PGOp.setBackendOp DeviceType.cuda BackendType.gloo (some 0)]) = 4 := by
  have h := rank_size_constant 1 4 "gloo" BackendType.gloo []
    [PGOp.setBoundDeviceIdOp (some { deviceType := DeviceType.cuda, index := 0 }),
      PGOp.setBackendOp DeviceType.cpu BackendType.gloo (some 0),
      PGOp.setBackendOp DeviceType.cuda BackendType.gloo (some 0)] (by decide)
  exact ⟨h.2.2.1, h.2.2.2⟩

/-! ## Registration in the fresh branch (C8) -/

/-- Equation for `setBackend` when `backendType` is not yet registered and
an instance is supplied. -/
theorem setBackend_fresh_eq (pg : PGState) (dt : DeviceType) (bt : BackendType)
    (b : BackendId) (h : findA pg.backendTypeToBackend bt = none) :
    setBackend pg dt bt (some b) =
      ({ pg with
          deviceTypeToBackendType := setA pg.deviceTypeToBackendType dt bt
          deviceTypes := insertD pg.deviceTypes dt
          deviceTypeToBackend := setA pg.deviceTypeToBackend dt b
          backendTypeToBackend := setA pg.backendTypeToBackend bt b
          heap := heapSetBound pg.heap b pg.boundDeviceId },
        Except.ok ()) := by
  unfold setBackend
  dsimp only
  rw [h]

/-- Equation for the state left by `setBackend` when `backendType` is
already registered (the reuse branch), whatever the optional argument and
the outcome of the consistency check. -/
theorem setBackend_reuse_state_eq (pg : PGState) (dt : DeviceType)
    (bt : BackendType) (ob : Option BackendId) (eb : BackendId)
    (h : findA pg.backendTypeToBackend bt = some eb) :
    (setBackend pg dt bt ob).1 =
      { pg with
          deviceTypeToBackendType := setA pg.deviceTypeToBackendType dt bt
          deviceTypes := insertD pg.deviceTypes dt
          deviceTypeToBackend := setA pg.deviceTypeToBackend dt eb } := by
  unfold setBackend
  dsimp only
  rw [h]
  cases ob with
  | none => rfl
  | some b =>
    dsimp only
    split
    all_goals rfl

theorem heapBound_heapSetBound (h : Heap) (b : BackendId) (d : Option Device) :
    heapBound (heapSetBound h b d) b = d := by
  unfold heapBound heapSetBound
  rw [findA_setA_self]
  rfl

/-- C8: when `setBackend` is called with a backend type not previously
registered and an instance is supplied, the call succeeds, the instance
is registered in both the device-type-to-backend map and the
backend-type-to-backend map, and the group's currently bound device is
propagated onto that backend instance. -/
theorem setBackend_fresh_registration (pg : PGState) (dt : DeviceType)
    (bt : BackendType) (b : BackendId)
    (hfresh : findA pg.backendTypeToBackend bt = none) :
    (setBackend pg dt bt (some b)).2 = Except.ok () ∧
      findA ((setBackend pg dt bt (some b)).1).deviceTypeToBackend dt = some b ∧
      findA ((setBackend pg dt bt (some b)).1).backendTypeToBackend bt = some b ∧
      heapBound ((setBackend pg dt bt (some b)).1).heap b = pg.boundDeviceId := by
  rw [setBackend_fresh_eq pg dt bt b hfresh]
  exact ⟨rfl, findA_setA_self _ _ _, findA_setA_self _ _ _,
    heapBound_heapSetBound _ _ _⟩

/-- Witness for C8 at a concrete input: a group bound to `cuda:0`
registering a fresh NCCL backend for the CUDA device type. -/
theorem setBackend_fresh_registration_witness :
    findA pgBoundFresh.backendTypeToBackend BackendType.nccl = none ∧
      (setBackend pgBoundFresh DeviceType.cuda BackendType.nccl (some 3)).2 =
        Except.ok () ∧
      heapBound ((setBackend pgBoundFresh DeviceType.cuda BackendType.nccl
          (some 3)).1).heap 3 =
        some { deviceType := DeviceType.cuda, index := 0 } := by
  have h := setBackend_fresh_registration pgBoundFresh DeviceType.cuda
    BackendType.nccl 3 (by decide)
  exact ⟨by decide, h.1, h.2.2.2⟩

/-! ## Backend-type reuse (C4) -/

/-- C4: after `setBackend(dt1, B, b1)` then `setBackend(dt2, B, b2)` with
distinct device types and agreeing bound devices, resolving either device
type yields the same backend instance; and once a backend type has a
registered instance, no later `setBackend` call ever replaces it — one
concrete instance per backend type. -/
theorem setBackend_backendType_reuse (pg : PGState) (dt1 dt2 : DeviceType)
    (B : BackendType) (b1 b2 : BackendId) (hne : dt1 ≠ dt2)
    (hagree : heapBound pg.heap b1 = heapBound pg.heap b2) :
    (getBackendByDeviceType
        ((setBackend ((setBackend pg dt1 B (some b1)).1) dt2 B (some b2)).1) dt1 =
      getBackendByDeviceType
        ((setBackend ((setBackend pg dt1 B (some b1)).1) dt2 B (some b2)).1) dt2 ∧
      isOkE (getBackendByDeviceType
        ((setBackend ((setBackend pg dt1 B (some b1)).1) dt2 B (some b2)).1) dt1) =
        true) ∧
      (∀ (pg' : PGState) (dt : DeviceType) (bt : BackendType)
          (ob : Option BackendId) (b : BackendId),
        findA pg'.backendTypeToBackend B = some b →
        findA ((setBackend pg' dt bt ob).1).backendTypeToBackend B = some b) := by
  constructor
  · obtain ⟨x, hx⟩ :
        ∃ x, findA ((setBackend pg dt1 B (some b1)).1).backendTypeToBackend B =
          some x := by
      cases hf : findA pg.backendTypeToBackend B with
      | some eb =>
        exact ⟨eb, by rw [setBackend_b2b_existing pg dt1 B (some b1) eb hf]; exact hf⟩
      | none =>
        exact ⟨b1, by
          rw [setBackend_b2b_fresh pg dt1 B b1 hf]
          exact findA_setA_self _ _ _⟩
    have hpg2 := setBackend_reuse_state_eq ((setBackend pg dt1 B (some b1)).1)
      dt2 B (some b2) x hx
    have hd2bt1 :
        findA ((setBackend ((setBackend pg dt1 B (some b1)).1) dt2 B
          (some b2)).1).deviceTypeToBackendType dt1 = some B := by
      rw [hpg2]
      dsimp only
      rw [findA_setA_ne _ _ _ _ hne,
        setBackend_deviceTypeToBackendType pg dt1 B (some b1)]
      exact findA_setA_self _ _ _
    have hd2bt2 :
        findA ((setBackend ((setBackend pg dt1 B (some b1)).1) dt2 B
          (some b2)).1).deviceTypeToBackendType dt2 = some B := by
      rw [hpg2]
      dsimp only
      exact findA_setA_self _ _ _
    have hb2b :
        findA ((setBackend ((setBackend pg dt1 B (some b1)).1) dt2 B
          (some b2)).1).backendTypeToBackend B = some x := by
      rw [hpg2]
      exact hx
    unfold getBackendByDeviceType
    rw [hd2bt1, hd2bt2]
    dsimp only
    rw [hb2b]
    exact ⟨rfl, rfl⟩
  · intro pg' dt bt ob b hb
    cases hf : findA pg'.backendTypeToBackend bt with
    | some eb =>
      rw [setBackend_b2b_existing pg' dt bt ob eb hf]
      exact hb
    | none =>
      cases ob with
      | some b' =>
        have hbtne : B ≠ bt := by
          intro he
          rw [he, hf] at hb
          cases hb
        rw [setBackend_b2b_fresh pg' dt bt b' hf, findA_setA_ne _ _ _ _ hbtne]
        exact hb
      | none =>
        rw [setBackend_b2b_fresh_none pg' dt bt hf]
        exact hb

/-- Witness for C4 at a concrete input: two unbound backend objects,
GLOO registered first for CPU then for CUDA — both device types resolve
to the first instance. -/
theorem setBackend_backendType_reuse_witness :
    getBackendByDeviceType
        ((setBackend ((setBackend pgTwoObjs DeviceType.cpu BackendType.gloo
          (some 0)).1) DeviceType.cuda BackendType.gloo (some 1)).1)
        DeviceType.cpu =
      getBackendByDeviceType
        ((setBackend ((setBackend pgTwoObjs DeviceType.cpu BackendType.gloo
          (some 0)).1) DeviceType.cuda BackendType.gloo (some 1)).1)
        DeviceType.cuda ∧
      isOkE (getBackendByDeviceType
        ((setBackend ((setBackend pgTwoObjs DeviceType.cpu BackendType.gloo
          (some 0)).1) DeviceType.cuda BackendType.gloo (some 1)).1)
        DeviceType.cpu) = true :=
  (setBackend_backendType_reuse pgTwoObjs DeviceType.cpu DeviceType.cuda
    BackendType.gloo 0 1 (by decide) (by decide)).1

/-! ## Lookup errors (C5) -/

theorem setBackend_preserves_b2b_absent (pg : PGState) (dt : DeviceType)
    (bt : BackendType) (ob : Option BackendId) (B : BackendType)
    (hne : bt ≠ B) (h : findA pg.backendTypeToBackend B = none) :
    findA ((setBackend pg dt bt ob).1).backendTypeToBackend B = none := by
  cases hf : findA pg.backendTypeToBackend bt with
  | some eb =>
    rw [setBackend_b2b_existing pg dt bt ob eb hf]
    exact h
  | none =>
    cases ob with
    | some b =>
      rw [setBackend_b2b_fresh pg dt bt b hf, findA_setA_ne _ _ _ _ (Ne.symm hne)]
      exact h
    | none =>
      rw [setBackend_b2b_fresh_none pg dt bt hf]
      exact h

theorem runSetBackends_absent (B : BackendType)
    (ops : List (DeviceType × BackendType × Option BackendId)) :
    ∀ pg : PGState, findA pg.backendTypeToBackend B = none →
      (∀ o ∈ ops, o.2.1 ≠ B) →
      findA (runSetBackends pg ops).backendTypeToBackend B = none := by
  induction ops with
  | nil =>
    intro pg h _
    exact h
  | cons o rest ih =>
    intro pg h hall
    have h1 := setBackend_preserves_b2b_absent pg o.1 o.2.1 o.2.2 B
      (hall o (List.mem_cons_self o rest)) h
    exact ih ((setBackend pg o.1 o.2.1 o.2.2).1) h1
      (fun o' ho' => hall o' (List.mem_cons_of_mem o ho'))

/-- C5: `getBackend(backendType)` fails with a not-found error for every
backend type never attached by any `setBackend` call since construction;
`getDefaultBackend()` fails with a not-found error carrying the group's
backend name when no backend of the group's own default type is attached;
and when such a backend is attached each returns the registered
instance. -/
theorem getBackend_lookup_errors :
    (∀ (rank size : Int) (name : String) (bt0 : BackendType) (heap : Heap)
        (ops : List (DeviceType × BackendType × Option BackendId))
        (B : BackendType),
        (∀ o ∈ ops, o.2.1 ≠ B) →
        getBackendByType (runSetBackends (mkProcessGroup rank size name bt0 heap)
            ops) B =
          Except.error (PGError.notFoundBackendType B)) ∧
      (∀ pg : PGState,
        findA pg.backendTypeToBackend pg.backendType = none →
        getDefaultBackend pg =
          Except.error (PGError.defaultBackendNotFound pg.backendType
            pg.backendName)) ∧
      (∀ (pg : PGState) (bt : BackendType) (b : BackendId),
        findA pg.backendTypeToBackend bt = some b →
        getBackendByType pg bt = Except.ok b ∧
          (bt = pg.backendType → getDefaultBackend pg = Except.ok b)) := by
  refine ⟨?_, ?_, ?_⟩
  · intro rank size name bt0 heap ops B hall
    have habs := runSetBackends_absent B ops (mkProcessGroup rank size name bt0
      heap) rfl hall
    unfold getBackendByType
    rw [habs]
  · intro pg h
    unfold getDefaultBackend
    rw [h]
  · intro pg bt b h
    constructor
    · unfold getBackendByType
      rw [h]
    · intro he
      unfold getDefaultBackend
      rw [← he, h]

/-- Witness for C5 at concrete inputs: NCCL was never attached so its
lookup fails; an MPI-default group with nothing attached fails with the
named default-backend error; the attached GLOO instance is returned by
both lookups. -/
theorem getBackend_lookup_errors_witness :
    getBackendByType (runSetBackends
        (mkProcessGroup 0 2 "gloo" BackendType.gloo
          [(0, { boundDeviceId := none, seq := 0 })])
        [(DeviceType.cpu, BackendType.gloo, some 0)]) BackendType.nccl =
      Except.error (PGError.notFoundBackendType BackendType.nccl) ∧
      getDefaultBackend (mkProcessGroup 0 2 "mpi" BackendType.mpi []) =
        Except.error (PGError.defaultBackendNotFound BackendType.mpi "mpi") ∧
      getBackendByType pgGlooSeq BackendType.gloo = Except.ok 7 ∧
      getDefaultBackend pgGlooSeq = Except.ok 7 := by
  have h := getBackend_lookup_errors
  have h3 := h.2.2 pgGlooSeq BackendType.gloo 7 (by decide)
  exact ⟨h.1 0 2 "gloo" BackendType.gloo _ _ BackendType.nccl (by decide),
    h.2.1 _ (by decide), h3.1, h3.2 (by decide)⟩

/-! ## Sequence-number dispatch (C3) -/

/-- C3: when the group's default backend type is not GLOO, NCCL or UCC,
both `setSequenceNumberForGroup()` and `getSequenceNumberForGroup()` fail
with the unsupported-feature error carrying the group's backend name (no
crash, no numeric default); for a supported default backend kind both
delegate to the default backend — inheriting its not-found error when it
is absent, and otherwise acting on exactly that instance. -/
theorem sequenceNumber_dispatch (pg : PGState) :
    (¬ supportsSequenceNumbers pg →
        (setSequenceNumberForGroup pg).2 =
            Except.error (PGError.unsupportedSequenceNumbers pg.backendName) ∧
          getSequenceNumberForGroup pg =
            Except.error (PGError.unsupportedSequenceNumbers pg.backendName)) ∧
      (supportsSequenceNumbers pg →
        (∀ e : PGError, getDefaultBackend pg = Except.error e →
            (setSequenceNumberForGroup pg).2 = Except.error e ∧
              getSequenceNumberForGroup pg = Except.error e) ∧
          (∀ b : BackendId, getDefaultBackend pg = Except.ok b →
            (setSequenceNumberForGroup pg).1.heap =
                backendSetSequenceNumber pg.heap b ∧
              (setSequenceNumberForGroup pg).2 = Except.ok () ∧
              getSequenceNumberForGroup pg = Except.ok (heapSeq pg.heap b))) := by
  constructor
  · intro h
    unfold setSequenceNumberForGroup getSequenceNumberForGroup
    rw [if_neg h, if_neg h]
    exact ⟨rfl, rfl⟩
  · intro h
    constructor
    · intro e he
      unfold setSequenceNumberForGroup getSequenceNumberForGroup
      rw [if_pos h, if_pos h, he]
      exact ⟨rfl, rfl⟩
    · intro b hb
      unfold setSequenceNumberForGroup getSequenceNumberForGroup
      rw [if_pos h, if_pos h, hb]
      exact ⟨rfl, rfl, rfl⟩

/-- Witness for C3 at concrete inputs: an MPI-default group fails both
calls with the error naming "mpi"; a GLOO-default group with its backend
attached reads that backend's counter. -/
theorem sequenceNumber_dispatch_witness :
    getSequenceNumberForGroup (mkProcessGroup 0 2 "mpi" BackendType.mpi []) =
      Except.error (PGError.unsupportedSequenceNumbers "mpi") ∧
      getSequenceNumberForGroup pgGlooSeq = Except.ok 42 := by
  constructor
  · exact ((sequenceNumber_dispatch (mkProcessGroup 0 2 "mpi" BackendType.mpi
      [])).1 (by decide)).2
  · exact (((sequenceNumber_dispatch pgGlooSeq).2 (by decide)).2 7 rfl).2.2

end C10d
